import Mathlib

/-!
Shallow embedding of the sensor-telemetry HTTP gateway (`main.go`).

The gateway translates CRUD-style HTTP requests into writes/queries against
an InfluxDB-like time-series store.  We model:

* time (`GoTime`) as Unix seconds (an `Int`); Go's zero `time.Time`
  corresponds to Unix second `-62135596800`;
* `float64` measurement values as `ℚ` (the gateway never performs any
  arithmetic on measurements — they are only copied between JSON, store
  points and store rows — so the carrier only needs decidable equality);
* the Flux query built by each handler as a list of pipeline stages
  (`FluxStage`), in exactly the order the Go code concatenates them;
* the store as a list of written points, with an interpreter `runQuery`
  giving the stages their Flux semantics (range is the half-open interval
  `[now - offset, now)`, `pivot` groups rows of one series and timestamp
  into a single record, `sort desc` orders by time descending, `limit n`
  keeps the first `n` rows);
* each HTTP handler as a pure function from its decoded inputs and the
  store's behaviour to a `HandlerOutcome` (status code, message, payload)
  together with the list of points it passes to the write API.
-/

/-- Go `time.Time`, reduced to Unix seconds. -/
abbrev GoTime := Int

/-- `Unix()` of Go's zero `time.Time` (January 1, year 1 UTC). -/
def goZeroTimeUnix : GoTime := -62135596800

/-- Go `time.Time.IsZero`. -/
def GoTime.isZero (t : GoTime) : Bool := t = goZeroTimeUnix

/-- Carrier for Go `float64` measurement values.  The gateway only copies
measurements (JSON → point fields → query rows → JSON); it never computes
with them, so any type with decidable equality models them faithfully. -/
abbrev Float64 := ℚ

/-- `SensorData` (main.go): the JSON body / response entity. -/
structure SensorData where
  id : String
  timestamp : GoTime
  temperature : Float64
  humidity : Float64
  pressure : Float64
  altitude : Float64
  location : String
deriving DecidableEq, Repr

/-- One InfluxDB point as built by `influxdb2.NewPointWithMeasurement`:
a measurement name, tag pairs and field pairs in the order the builder
calls add them, and an explicit timestamp. -/
structure Point where
  measurement : String
  tags : List (String × String)
  fields : List (String × Float64)
  time : GoTime
deriving DecidableEq, Repr

/-- One stage of a Flux query pipeline, as emitted by the handlers'
`fmt.Sprintf` concatenation.  `range` carries the window size in seconds
(`-24h` is 86400, `-30d` is 2592000). -/
inductive FluxStage where
  | range (offsetSeconds : Int)
  | filterMeasurement (m : String)
  | filterLocation (loc : String)
  | filterSensorId (id : String)
  | pivot
  | sort (desc : Bool)
  | limit (n : Int)
deriving DecidableEq, Repr

/-- A pivoted Flux record as the handlers read it back: `record.Time()`,
the `sensor_id` and `location` tag columns, and the four field columns,
each possibly absent (`record.ValueByKey` returning nil). -/
structure FluxRecord where
  time : GoTime
  measurement : String
  sensor_id : String
  location : String
  temperature : Option Float64
  humidity : Option Float64
  pressure : Option Float64
  altitude : Option Float64
deriving DecidableEq, Repr

/-- Outcome of `queryAPI.Query` plus iterating the result:
`fail` is the call itself returning an error; `ok rows resultErr` is a
successful call yielding `rows` via `result.Next()`, with `resultErr`
the value of `result.Err() != nil` after iteration. -/
inductive QueryResult where
  | fail
  | ok (rows : List FluxRecord) (resultErr : Bool)
deriving DecidableEq, Repr

/-- Payload of a JSON response envelope. -/
inductive RespData where
  | none
  | reading (d : SensorData)
  | readings (ds : List SensorData)
  | health
deriving DecidableEq, Repr

/-- A handler's HTTP response: `sendErrorResponse` or
`sendSuccessResponse` with status code, message and payload. -/
inductive HandlerOutcome where
  | error (status : Nat) (message : String)
  | success (status : Nat) (message : String) (data : RespData)
deriving DecidableEq, Repr

/-- A decoded request body: `json.NewDecoder(r.Body).Decode` either fails
or produces a `SensorData` (absent JSON keys yield Go zero values:
empty id, zero timestamp, 0.0 measurements, empty location). -/
abbrev DecodedBody := Except Unit SensorData

/-! ## Handler logic translated from main.go -/

/-- The timestamp/id defaulting in `createSensorData` (main.go:120-128):
a zero timestamp becomes `now`; an empty id becomes
`fmt.Sprintf("sensor_%d", data.Timestamp.Unix())`. -/
def fillDefaults (now : GoTime) (d : SensorData) : SensorData :=
  let d := if d.timestamp.isZero then { d with timestamp := now } else d
  if d.id = "" then { d with id := "sensor_" ++ toString d.timestamp } else d

/-- The point built by `createSensorData` / `updateSensorData`
(main.go:131-138, 295-302). -/
def buildPoint (d : SensorData) : Point :=
  { measurement := "sensor_readings"
    tags := [("sensor_id", d.id), ("location", d.location)]
    fields := [("temperature", d.temperature), ("humidity", d.humidity),
               ("pressure", d.pressure), ("altitude", d.altitude)]
    time := d.timestamp }

/-- `createSensorData` (main.go:113-150).  Inputs: the current time, the
decoded body, and whether `writeAPI.WritePoint` succeeds.  Output: the
HTTP response and the list of points passed to `WritePoint`. -/
def createSensorData (now : GoTime) (body : DecodedBody) (writeOk : Bool) :
    HandlerOutcome × List Point :=
  match body with
  | .error _ => (.error 400 "Invalid JSON format", [])
  | .ok data0 =>
    let data := fillDefaults now data0
    let p := buildPoint data
    if writeOk then
      (.success 201 "Sensor data created successfully" (.reading data), [p])
    else
      (.error 500 "Failed to write to database", [p])

/-- The `limit` query-parameter handling in `getSensorData`
(main.go:154-162): default 100; a parse result that is a positive
integer replaces it; anything else leaves the default. -/
def parseLimitParam (goAtoi : String → Option Int) (limit : String) : Int :=
  let limitInt : Int := 100
  if limit ≠ "" then
    match goAtoi limit with
    | some l => if l > 0 then l else limitInt
    | none => limitInt
  else limitInt

/-- `strconv.Atoi`: optional single sign, then at least one decimal
digit; errors (`none`) on empty input, any non-digit, or a value outside
the 64-bit signed range. -/
def goAtoi (s : String) : Option Int :=
  let withSign : Bool × List Char :=
    match s.toList with
    | '+' :: rest => (false, rest)
    | '-' :: rest => (true, rest)
    | cs => (false, cs)
  match withSign with
  | (neg, ds) =>
    if ds = [] ∨ ¬ ds.all (·.isDigit) then none
    else
      let n : Nat := ds.foldl (fun acc c => acc * 10 + (c.toNat - 48)) 0
      let v : Int := if neg then -(n : Int) else (n : Int)
      if v < -(2 ^ 63) ∨ v > 2 ^ 63 - 1 then none else some v

/-- The Flux pipeline built by `getSensorData` (main.go:164-179), stage
by stage in the order the string is concatenated: range over the last 24
hours, measurement filter, the location filter only when the parameter
is non-empty, then pivot, then `limit`, then `sort` descending —
note the Go code appends `limit` BEFORE `sort`. -/
def buildListQuery (location : String) (limitInt : Int) : List FluxStage :=
  [.range 86400, .filterMeasurement "sensor_readings"]
    ++ (if location ≠ "" then [.filterLocation location] else [])
    ++ [.pivot, .limit limitInt, .sort true]

/-- The row-to-`SensorData` decoding shared by `getSensorData`
(main.go:195-213) and `getSensorDataByID` (main.go:255-273): tag and
time columns are read unconditionally; each of the four field columns is
copied only when non-nil, otherwise the Go zero value 0.0 remains. -/
def recordToSensorData (r : FluxRecord) : SensorData :=
  { id := r.sensor_id
    timestamp := r.time
    location := r.location
    temperature := r.temperature.getD 0
    humidity := r.humidity.getD 0
    pressure := r.pressure.getD 0
    altitude := r.altitude.getD 0 }

/-- `getSensorData` (main.go:152-224).  `run` is the store executing a
query: the handler builds the List query from its two parameters and
passes it to the store. -/
def getSensorData (limitParam location : String)
    (run : List FluxStage → QueryResult) : HandlerOutcome :=
  let limitInt := parseLimitParam goAtoi limitParam
  let query := buildListQuery location limitInt
  match run query with
  | .fail => .error 500 "Failed to query database"
  | .ok rows resultErr =>
    let sensorData := rows.map recordToSensorData
    if resultErr then .error 500 "Error processing query results"
    else .success 200 "Data retrieved successfully" (.readings sensorData)

/-- The Flux pipeline built by `getSensorDataByID` (main.go:230-238):
range over the last 30 days, measurement filter, sensor_id filter,
pivot, sort descending, limit 1. -/
def buildGetByIDQuery (id : String) : List FluxStage :=
  [.range 2592000, .filterMeasurement "sensor_readings", .filterSensorId id,
   .pivot, .sort true, .limit 1]

/-- `getSensorDataByID` (main.go:226-276): query failure is 500; an
empty result (`!result.Next()`) is 404; otherwise the first record is
decoded and returned with 200. -/
def getSensorDataByID (id : String)
    (run : List FluxStage → QueryResult) : HandlerOutcome :=
  let query := buildGetByIDQuery id
  match run query with
  | .fail => .error 500 "Failed to query database"
  | .ok [] _ => .error 404 "Sensor data not found"
  | .ok (r :: _) _ =>
    .success 200 "Data retrieved successfully" (.reading (recordToSensorData r))

/-- `updateSensorData` (main.go:278-313): decode, force the id from the
path parameter, default a zero timestamp, build and write the same
shape of point as Create. -/
def updateSensorData (id : String) (now : GoTime) (body : DecodedBody)
    (writeOk : Bool) : HandlerOutcome × List Point :=
  match body with
  | .error _ => (.error 400 "Invalid JSON format", [])
  | .ok updateData0 =>
    let d1 := { updateData0 with id := id }
    let updateData :=
      if d1.timestamp.isZero then { d1 with timestamp := now } else d1
    let p := buildPoint updateData
    if writeOk then
      (.success 200 "Sensor data updated successfully" (.reading updateData), [p])
    else
      (.error 500 "Failed to update data", [p])

/-- `deleteSensorData` (main.go:315-319): the request body and id are
never inspected, no point is written, and the response is always the
same 501 error. -/
def deleteSensorData (id : String) (body : String) :
    HandlerOutcome × List Point :=
  (.error 501 "Delete operation not implemented for time series data", [])

/-- `healthCheck` (main.go:321-338): the store's health call either
errors or returns a status string; healthy only for `"pass"`. -/
def healthCheck (res : Except Unit String) : HandlerOutcome :=
  match res with
  | .error _ => .error 503 "Database connection failed"
  | .ok status =>
    if status ≠ "pass" then .error 503 "Database connection failed"
    else .success 200 "Service is healthy" .health

/-! ## Store semantics: interpreting Flux pipelines over written points -/

/-- One un-pivoted Flux row: a stored point contributes one row per
field.  Tags are denormalized into the two columns this schema uses. -/
structure RawRow where
  time : GoTime
  measurement : String
  sensor_id : String
  location : String
  field : String
  value : Float64
deriving DecidableEq, Repr

/-- Explode a stored point into its raw Flux rows, one per field, with
the `sensor_id` and `location` tag values (empty when the tag is
absent). -/
def Point.toRawRows (p : Point) : List RawRow :=
  p.fields.map fun fv =>
    { time := p.time
      measurement := p.measurement
      sensor_id := ((p.tags.lookup "sensor_id").getD "")
      location := ((p.tags.lookup "location").getD "")
      field := fv.1
      value := fv.2 }

/-- The series-plus-timestamp key that `pivot(rowKey:["_time"],
columnKey:["_field"])` groups by: the group key (measurement and tags)
together with `_time`. -/
def RawRow.pivotKey (r : RawRow) : GoTime × String × String × String :=
  (r.time, r.measurement, r.sensor_id, r.location)

/-- Keys in order of first appearance, duplicates removed (`seen`
accumulates the keys already emitted). -/
def dedupKeysAux {α : Type} [DecidableEq α] (seen : List α) :
    List α → List α
  | [] => []
  | k :: ks =>
    if k ∈ seen then dedupKeysAux seen ks
    else k :: dedupKeysAux (k :: seen) ks

/-- Keys in order of first appearance, duplicates removed. -/
def dedupKeys {α : Type} [DecidableEq α] (l : List α) : List α :=
  dedupKeysAux [] l

/-- The value of field column `fname` in the pivoted record for key `k`
(the last matching raw row wins, `none` when the series has no such
field at that timestamp). -/
def lookupField (rows : List RawRow) (k : GoTime × String × String × String)
    (fname : String) : Option Float64 :=
  ((rows.filter (fun r => r.pivotKey = k ∧ r.field = fname)).map
    (fun r => r.value)).getLast?

/-- Flux `pivot(rowKey:["_time"], columnKey:["_field"],
valueColumn:"_value")`: one record per (series, timestamp), carrying
whichever of the four field columns that series has there. -/
def pivotRows (rows : List RawRow) : List FluxRecord :=
  (dedupKeys (rows.map RawRow.pivotKey)).map fun k =>
    { time := k.1
      measurement := k.2.1
      sensor_id := k.2.2.1
      location := k.2.2.2
      temperature := lookupField rows k "temperature"
      humidity := lookupField rows k "humidity"
      pressure := lookupField rows k "pressure"
      altitude := lookupField rows k "altitude" }

/-- Descending-time order used by `sort(columns:["_time"], desc:true)`. -/
def timeDescRel (a b : FluxRecord) : Prop := b.time ≤ a.time

instance : DecidableRel timeDescRel := fun a b =>
  inferInstanceAs (Decidable (b.time ≤ a.time))

instance : IsTotal FluxRecord timeDescRel :=
  ⟨fun a b => Int.le_total b.time a.time⟩

instance : IsTrans FluxRecord timeDescRel :=
  ⟨fun _ _ _ hab hbc => le_trans hbc hab⟩

/-- A pipeline's intermediate table: raw rows before `pivot`, pivoted
records after. -/
inductive TableState where
  | raw (rows : List RawRow)
  | pivoted (rows : List FluxRecord)
deriving DecidableEq, Repr

/-- One pipeline stage, interpreted on the current table.  `range` keeps
rows in the half-open window `[now - offset, now)` (Flux `range` start is
inclusive, its implicit `now()` stop exclusive); filters test the named
column; `sort`/`limit` reorder and truncate. -/
def evalStage (now : GoTime) (st : TableState) : FluxStage → TableState
  | .range off =>
    match st with
    | .raw rows => .raw (rows.filter fun r => now - off ≤ r.time ∧ r.time < now)
    | .pivoted rows =>
      .pivoted (rows.filter fun r => now - off ≤ r.time ∧ r.time < now)
  | .filterMeasurement m =>
    match st with
    | .raw rows => .raw (rows.filter fun r => r.measurement = m)
    | .pivoted rows => .pivoted (rows.filter fun r => r.measurement = m)
  | .filterLocation loc =>
    match st with
    | .raw rows => .raw (rows.filter fun r => r.location = loc)
    | .pivoted rows => .pivoted (rows.filter fun r => r.location = loc)
  | .filterSensorId sid =>
    match st with
    | .raw rows => .raw (rows.filter fun r => r.sensor_id = sid)
    | .pivoted rows => .pivoted (rows.filter fun r => r.sensor_id = sid)
  | .pivot =>
    match st with
    | .raw rows => .pivoted (pivotRows rows)
    | .pivoted rows => .pivoted rows
  | .sort _ =>
    match st with
    | .raw rows => .raw rows
    | .pivoted rows => .pivoted (rows.insertionSort timeDescRel)
  | .limit n =>
    match st with
    | .raw rows => .raw (rows.take n.toNat)
    | .pivoted rows => .pivoted (rows.take n.toNat)

/-- Run a whole pipeline over the store's written points and read the
records back the way `result.Next()` does (a pipeline that never pivots
would yield no pivoted records). -/
def runQuery (now : GoTime) (points : List Point)
    (stages : List FluxStage) : List FluxRecord :=
  match stages.foldl (evalStage now) (.raw (points.flatMap Point.toRawRows)) with
  | .raw _ => []
  | .pivoted rows => rows

/-- The candidate records the GetByID pipeline has produced just before
its `sort`/`limit` tail: the 30-day window, both filters, and the pivot,
applied to the store's points.  `runQuery … (buildGetByIDQuery id)` is
the descending-sorted, 1-truncated version of this list. -/
def byIDCandidates (now : GoTime) (points : List Point) (id : String) :
    List FluxRecord :=
  pivotRows
    ((((points.flatMap Point.toRawRows).filter
          (fun r => now - 2592000 ≤ r.time ∧ r.time < now)).filter
        (fun r => r.measurement = "sensor_readings")).filter
      (fun r => r.sensor_id = id))

/-! ## Concrete inputs used in counterexamples and witnesses -/

/-- A reading stored at time 10000 (the older of the two List-endpoint
inputs). -/
def listedOldReading : SensorData :=
  { id := "a", timestamp := 10000, temperature := 1, humidity := 2,
    pressure := 3, altitude := 4, location := "lab" }

/-- A reading stored at time 20000 (the more recent one). -/
def listedNewReading : SensorData :=
  { id := "b", timestamp := 20000, temperature := 5, humidity := 6,
    pressure := 7, altitude := 8, location := "lab" }

/-- A fully specified reading used by witnesses. -/
def sampleReading : SensorData :=
  { id := "x1", timestamp := 50000, temperature := 37/10, humidity := 55,
    pressure := 1013, altitude := 12, location := "lab" }

/-! ## Theorems -/

/-- C5: for every id and every request body, Delete returns the 501
NotImplemented error envelope and passes no point to the write API, so
its result is independent of the id, the body, and any stored state. -/
theorem claim5_delete_not_implemented (id body : String) :
    deleteSensorData id body =
      (.error 501 "Delete operation not implemented for time series data",
       []) := rfl

/-- C7: HealthCheck reports the service healthy exactly when the store's
health call succeeds with status string "pass"; in every other case
(call error or any other status) it returns the 503 error response. -/
theorem claim7_health_pass_iff (res : Except Unit String) :
    (healthCheck res = .success 200 "Service is healthy" .health ↔
       res = .ok "pass") ∧
    (res ≠ .ok "pass" →
       healthCheck res = .error 503 "Database connection failed") := by
  constructor
  · constructor
    · intro h
      cases res with
      | error e => simp [healthCheck] at h
      | ok s =>
        by_cases hs : s = "pass"
        · simp [hs]
        · simp [healthCheck, hs] at h
    · intro h; subst h; rfl
  · intro h
    cases res with
    | error e => rfl
    | ok s =>
      have hs : s ≠ "pass" := fun hc => h (by rw [hc])
      simp [healthCheck, hs]

/-- Witness for C7 at concrete inputs. -/
theorem claim7_health_pass_iff_witness :
    (healthCheck (.ok "pass") = .success 200 "Service is healthy" .health) ∧
    ((Except.ok "fail" : Except Unit String) ≠ .ok "pass" ∧
      healthCheck (.ok "fail") = .error 503 "Database connection failed") :=
  ⟨(claim7_health_pass_iff (.ok "pass")).1.mpr rfl,
   by simp, (claim7_health_pass_iff (.ok "fail")).2 (by simp)⟩

/-- C9: an absent (empty), non-numeric, zero or negative `limit` query
parameter leaves the default limit 100; a parameter that `strconv.Atoi`
parses as a positive integer is used exactly; and no limit value ever
produces an error response (a successful query still yields 200). -/
theorem claim9_limit_param_default (s : String) (l : Int) :
    parseLimitParam goAtoi "" = 100 ∧
    (goAtoi s = none → parseLimitParam goAtoi s = 100) ∧
    (goAtoi s = some l → l ≤ 0 → parseLimitParam goAtoi s = 100) ∧
    (goAtoi s = some l → 0 < l → parseLimitParam goAtoi s = l) ∧
    (∀ location rows,
      getSensorData s location (fun _ => .ok rows false) =
        .success 200 "Data retrieved successfully"
          (.readings (rows.map recordToSensorData))) := by
  refine ⟨rfl, ?_, ?_, ?_, ?_⟩
  · intro h
    by_cases hs : s = ""
    · subst hs; rfl
    · simp [parseLimitParam, hs, h]
  · intro h hl
    by_cases hs : s = ""
    · subst hs; rfl
    · simp [parseLimitParam, hs, h, not_lt.mpr hl]
  · intro h hl
    have hs : s ≠ "" := by
      intro hc; subst hc
      simp [goAtoi] at h
    simp [parseLimitParam, hs, h, hl]
  · intro location rows
    rfl

/-- Witness for C9 at concrete inputs. -/
theorem claim9_limit_param_default_witness :
    (goAtoi "abc" = none ∧ parseLimitParam goAtoi "abc" = 100) ∧
    (goAtoi "-3" = some (-3) ∧ (-3 : Int) ≤ 0 ∧
      parseLimitParam goAtoi "-3" = 100) ∧
    (goAtoi "25" = some 25 ∧ (0 : Int) < 25 ∧
      parseLimitParam goAtoi "25" = 25) :=
  ⟨⟨by decide, (claim9_limit_param_default "abc" 0).2.1 (by decide)⟩,
   ⟨by decide, by decide,
    (claim9_limit_param_default "-3" (-3)).2.2.1 (by decide) (by decide)⟩,
   ⟨by decide, by decide,
    (claim9_limit_param_default "25" 25).2.2.2.1 (by decide) (by decide)⟩⟩

/-- C10: when a store row is decoded (the logic shared by List and
GetByID), a nil field value yields 0.0 and a present one is copied
as-is, for each of the four measurements, so every returned reading
carries all four; and the handlers return exactly these decoded
readings. -/
theorem claim10_nil_fields_become_zero (r : FluxRecord) :
    ((r.temperature = none → (recordToSensorData r).temperature = 0) ∧
     (∀ v, r.temperature = some v → (recordToSensorData r).temperature = v)) ∧
    ((r.humidity = none → (recordToSensorData r).humidity = 0) ∧
     (∀ v, r.humidity = some v → (recordToSensorData r).humidity = v)) ∧
    ((r.pressure = none → (recordToSensorData r).pressure = 0) ∧
     (∀ v, r.pressure = some v → (recordToSensorData r).pressure = v)) ∧
    ((r.altitude = none → (recordToSensorData r).altitude = 0) ∧
     (∀ v, r.altitude = some v → (recordToSensorData r).altitude = v)) ∧
    (getSensorData "" "" (fun _ => .ok [r] false) =
      .success 200 "Data retrieved successfully"
        (.readings [recordToSensorData r])) ∧
    (getSensorDataByID r.sensor_id (fun _ => .ok [r] false) =
      .success 200 "Data retrieved successfully"
        (.reading (recordToSensorData r))) := by
  refine ⟨⟨?_, ?_⟩, ⟨?_, ?_⟩, ⟨?_, ?_⟩, ⟨?_, ?_⟩, rfl, rfl⟩ <;>
    intro h <;> simp_all [recordToSensorData]

/-- Witness for C10 at a concrete record with a nil temperature and
present humidity. -/
theorem claim10_nil_fields_become_zero_witness :
    ((FluxRecord.mk 5 "sensor_readings" "a" "lab" none (some 55) none none).temperature = none ∧
      (recordToSensorData
        (FluxRecord.mk 5 "sensor_readings" "a" "lab" none (some 55) none none)).temperature = 0) ∧
    ((FluxRecord.mk 5 "sensor_readings" "a" "lab" none (some 55) none none).humidity = some 55 ∧
      (recordToSensorData
        (FluxRecord.mk 5 "sensor_readings" "a" "lab" none (some 55) none none)).humidity = 55) :=
  ⟨⟨rfl, (claim10_nil_fields_become_zero
      (FluxRecord.mk 5 "sensor_readings" "a" "lab" none (some 55) none none)).1.1 rfl⟩,
   ⟨rfl, (claim10_nil_fields_become_zero
      (FluxRecord.mk 5 "sensor_readings" "a" "lab" none (some 55) none none)).2.1.2 55 rfl⟩⟩

/-- C2: when the decoded body has a zero timestamp and an empty id, the
stored and echoed reading gets timestamp `now` and the id
`"sensor_" ++ <Unix seconds of that timestamp>`; a non-zero timestamp or
a non-empty id is kept unchanged; and the success response echoes
exactly the defaulted reading while the written point is built from
it. -/
theorem claim2_create_defaults (now : GoTime) (d : SensorData) :
    (d.timestamp = goZeroTimeUnix → d.id = "" →
      fillDefaults now d =
        { d with timestamp := now, id := "sensor_" ++ toString now }) ∧
    (d.timestamp ≠ goZeroTimeUnix →
      (fillDefaults now d).timestamp = d.timestamp) ∧
    (d.id ≠ "" → (fillDefaults now d).id = d.id) ∧
    (createSensorData now (.ok d) true =
      (.success 201 "Sensor data created successfully"
          (.reading (fillDefaults now d)),
       [buildPoint (fillDefaults now d)])) := by
  refine ⟨?_, ?_, ?_, rfl⟩
  · intro ht hid
    simp [fillDefaults, GoTime.isZero, ht, hid]
  · intro ht
    have hz : d.timestamp.isZero = false := by
      simp [GoTime.isZero, ht]
    simp only [fillDefaults, hz, Bool.false_eq_true, if_false]
    split <;> rfl
  · intro hid
    simp only [fillDefaults, GoTime.isZero]
    split <;> simp [hid]

/-- Witness for C2: a body with zero timestamp and empty id created at
time 777 gets timestamp 777 and id "sensor_777". -/
theorem claim2_create_defaults_witness :
    ((SensorData.mk "" goZeroTimeUnix 5 6 7 8 "lab").timestamp = goZeroTimeUnix ∧
     (SensorData.mk "" goZeroTimeUnix 5 6 7 8 "lab").id = "" ∧
     fillDefaults 777 (SensorData.mk "" goZeroTimeUnix 5 6 7 8 "lab") =
       SensorData.mk "sensor_777" 777 5 6 7 8 "lab") ∧
    (sampleReading.timestamp ≠ goZeroTimeUnix ∧
     (fillDefaults 777 sampleReading).timestamp = sampleReading.timestamp) ∧
    (sampleReading.id ≠ "" ∧
     (fillDefaults 777 sampleReading).id = sampleReading.id) := by
  refine ⟨⟨rfl, rfl, ?_⟩, ⟨by decide, ?_⟩, ⟨by decide, ?_⟩⟩
  · have h := (claim2_create_defaults 777
      (SensorData.mk "" goZeroTimeUnix 5 6 7 8 "lab")).1 rfl rfl
    simpa using h
  · exact (claim2_create_defaults 777 sampleReading).2.1 (by decide)
  · exact (claim2_create_defaults 777 sampleReading).2.2.1 (by decide)

/-- C8: the List query ranges over the last 24 hours (86400 seconds); a
location filter stage for `loc'` appears in it exactly when `loc'` is
the supplied location and that location is non-empty; a failing store
call yields the 500 StorageError response; and a successful call with no
rows yields a 200 success with an empty sequence of readings. -/
theorem claim8_list_query_shape (limitParam location : String)
    (run : List FluxStage → QueryResult) :
    (buildListQuery location (parseLimitParam goAtoi limitParam)).head? =
      some (.range 86400) ∧
    (∀ loc', FluxStage.filterLocation loc' ∈
        buildListQuery location (parseLimitParam goAtoi limitParam) ↔
      (loc' = location ∧ location ≠ "")) ∧
    (run (buildListQuery location (parseLimitParam goAtoi limitParam)) = .fail →
      getSensorData limitParam location run =
        .error 500 "Failed to query database") ∧
    (run (buildListQuery location (parseLimitParam goAtoi limitParam)) =
        .ok [] false →
      getSensorData limitParam location run =
        .success 200 "Data retrieved successfully" (.readings [])) := by
  refine ⟨rfl, ?_, ?_, ?_⟩
  · intro loc'
    by_cases hl : location = ""
    · subst hl
      simp [buildListQuery]
    · simp [buildListQuery, hl, and_comm]
  · intro h
    simp [getSensorData, h]
  · intro h
    simp [getSensorData, h]

/-- Witness for C8: with location "lab" the filter stage is present, a
failing store gives 500, and an empty result gives 200 with []. -/
theorem claim8_list_query_shape_witness :
    (FluxStage.filterLocation "lab" ∈
        buildListQuery "lab" (parseLimitParam goAtoi "") ∧
      ("lab" : String) = "lab" ∧ ("lab" : String) ≠ "") ∧
    ((fun _ => QueryResult.fail) (buildListQuery "lab" (parseLimitParam goAtoi "")) = .fail ∧
      getSensorData "" "lab" (fun _ => QueryResult.fail) =
        .error 500 "Failed to query database") ∧
    ((fun _ => QueryResult.ok [] false) (buildListQuery "lab" (parseLimitParam goAtoi "")) = .ok [] false ∧
      getSensorData "" "lab" (fun _ => QueryResult.ok [] false) =
        .success 200 "Data retrieved successfully" (.readings [])) :=
  ⟨⟨(claim8_list_query_shape "" "lab" (fun _ => QueryResult.fail)).2.1 "lab"
      |>.mpr ⟨rfl, by decide⟩, rfl, by decide⟩,
   ⟨rfl, (claim8_list_query_shape "" "lab" (fun _ => QueryResult.fail)).2.2.1 rfl⟩,
   ⟨rfl, (claim8_list_query_shape "" "lab"
      (fun _ => QueryResult.ok [] false)).2.2.2 rfl⟩⟩

/-- For a non-empty forced id, Update's inline defaulting (force id,
then default a zero timestamp) coincides with Create's `fillDefaults`
applied to the body with the id overwritten. -/
theorem update_defaulting_eq_fillDefaults (id : String) (now : GoTime)
    (d : SensorData) (hid : id ≠ "") :
    (if ({ d with id := id } : SensorData).timestamp.isZero then
        { ({ d with id := id } : SensorData) with timestamp := now }
      else { d with id := id }) =
      fillDefaults now { d with id := id } := by
  simp only [fillDefaults]
  split <;> simp [hid]

/-- C6: for a non-empty path id, Update decodes, overwrites the id, and
then behaves as Create does on the modified body: it attempts to write
the identical point (same measurement, tags, fields and timestamp
defaulting), returns the same 400 BadRequest on malformed JSON, a 500
StorageError when the write fails, and otherwise a success response
echoing the same defaulted reading. -/
theorem claim6_update_refines_create (id : String) (now : GoTime)
    (body : DecodedBody) (writeOk : Bool) (hid : id ≠ "") :
    ((updateSensorData id now body writeOk).2 =
      (createSensorData now
        (Except.map (fun d => { d with id := id }) body) writeOk).2) ∧
    (∀ e, body = .error e →
      updateSensorData id now body writeOk =
          (.error 400 "Invalid JSON format", []) ∧
        createSensorData now
            (Except.map (fun d => { d with id := id }) body) writeOk =
          (.error 400 "Invalid JSON format", [])) ∧
    (∀ d, body = .ok d →
      (writeOk = false →
        (updateSensorData id now body writeOk).1 =
            .error 500 "Failed to update data" ∧
          (createSensorData now (.ok { d with id := id }) writeOk).1 =
            .error 500 "Failed to write to database") ∧
      (writeOk = true →
        (updateSensorData id now body writeOk).1 =
            .success 200 "Sensor data updated successfully"
              (.reading (fillDefaults now { d with id := id })) ∧
          (createSensorData now (.ok { d with id := id }) writeOk).1 =
            .success 201 "Sensor data created successfully"
              (.reading (fillDefaults now { d with id := id })))) := by
  refine ⟨?_, ?_, ?_⟩
  · cases body with
    | error e => rfl
    | ok d =>
      cases writeOk <;>
        simp [updateSensorData, createSensorData, Except.map,
          update_defaulting_eq_fillDefaults id now d hid]
  · intro e he
    subst he
    exact ⟨rfl, rfl⟩
  · intro d hd
    subst hd
    constructor
    · intro hw
      subst hw
      constructor
      · simp [updateSensorData]
      · simp [createSensorData]
    · intro hw
      subst hw
      constructor
      · simp [updateSensorData,
          update_defaulting_eq_fillDefaults id now d hid]
      · simp [createSensorData]

/-- Witness for C6: at id "a", a concrete body and a succeeding write,
Update and Create attempt the identical point write. -/
theorem claim6_update_refines_create_witness :
    ("a" : String) ≠ "" ∧
    (updateSensorData "a" 5 (.ok sampleReading) true).2 =
      (createSensorData 5
        (Except.map (fun d => { d with id := "a" })
          (.ok sampleReading)) true).2 :=
  ⟨by decide,
   (claim6_update_refines_create "a" 5 (.ok sampleReading) true
     (by decide)).1⟩

/-- C4: GetByID answers 500 exactly when the store call fails, 404
exactly when it returns no rows, and otherwise 200 with the first
record; the store semantics of its query (sort descending then limit 1
over the 30-day filtered, pivoted candidates) deliver exactly one
record, which is a candidate of maximal time — the single most recent
matching point. -/
theorem claim4_get_by_id (id : String) (run : List FluxStage → QueryResult) :
    (getSensorDataByID id run = .error 500 "Failed to query database" ↔
      run (buildGetByIDQuery id) = .fail) ∧
    (getSensorDataByID id run = .error 404 "Sensor data not found" ↔
      ∃ b, run (buildGetByIDQuery id) = .ok [] b) ∧
    (∀ r rs b, run (buildGetByIDQuery id) = .ok (r :: rs) b →
      getSensorDataByID id run =
        .success 200 "Data retrieved successfully"
          (.reading (recordToSensorData r))) ∧
    (∀ now points, runQuery now points (buildGetByIDQuery id) =
      ((byIDCandidates now points id).insertionSort timeDescRel).take 1) ∧
    (∀ now points r rs,
      runQuery now points (buildGetByIDQuery id) = r :: rs →
        rs = [] ∧ r ∈ byIDCandidates now points id ∧
          ∀ r2 ∈ byIDCandidates now points id, r2.time ≤ r.time) := by
  refine ⟨?_, ?_, ?_, fun _ _ => rfl, ?_⟩
  · cases hq : run (buildGetByIDQuery id) with
    | fail => simp [getSensorDataByID, hq]
    | ok rows b =>
      cases rows <;> simp [getSensorDataByID, hq]
  · cases hq : run (buildGetByIDQuery id) with
    | fail => simp [getSensorDataByID, hq]
    | ok rows b =>
      cases rows <;> simp [getSensorDataByID, hq]
  · intro r rs b hq
    simp [getSensorDataByID, hq]
  · intro now points r rs h
    have hdec : ((byIDCandidates now points id).insertionSort
        timeDescRel).take 1 = r :: rs := h
    set L := (byIDCandidates now points id).insertionSort timeDescRel with hL
    have hsorted : L.Sorted timeDescRel :=
      List.sorted_insertionSort timeDescRel _
    cases hLc : L with
    | nil => rw [hLc] at hdec; simp at hdec
    | cons a t =>
      rw [hLc] at hdec
      simp only [List.take_succ_cons, List.take_zero] at hdec
      obtain ⟨har, hrs⟩ : a = r ∧ [] = rs := by
        constructor
        · exact (List.cons.injEq a [] r rs ▸ hdec).1
        · exact (List.cons.injEq a [] r rs ▸ hdec).2
      subst har
      refine ⟨hrs.symm, ?_, ?_⟩
      · have : a ∈ L := by rw [hLc]; exact List.mem_cons_self a t
        exact (List.mem_insertionSort timeDescRel).mp this
      · intro r2 hr2
        have hr2L : r2 ∈ L :=
          (List.mem_insertionSort timeDescRel).mpr hr2
        rw [hLc] at hr2L
        rcases List.mem_cons.mp hr2L with he | ht
        · subst he; exact le_refl _
        · have hs : List.Sorted timeDescRel (a :: t) := hLc ▸ hsorted
          exact List.rel_of_sorted_cons hs r2 ht

/-- Witness for C4: a failing store yields 500, an empty store yields
404, and over a one-point store the single most recent matching record
is returned. -/
theorem claim4_get_by_id_witness :
    (getSensorDataByID "a" (fun _ => QueryResult.fail) =
      .error 500 "Failed to query database") ∧
    (getSensorDataByID "a" (fun _ => QueryResult.ok [] false) =
      .error 404 "Sensor data not found") ∧
    (runQuery 90000 [buildPoint listedOldReading]
        (buildGetByIDQuery "a") =
      ((byIDCandidates 90000 [buildPoint listedOldReading] "a").insertionSort
        timeDescRel).take 1) :=
  ⟨(claim4_get_by_id "a" (fun _ => QueryResult.fail)).1.mpr rfl,
   (claim4_get_by_id "a" (fun _ => QueryResult.ok [] false)).2.1.mpr
     ⟨false, rfl⟩,
   (claim4_get_by_id "a" (fun _ => QueryResult.fail)).2.2.2.1 90000
     [buildPoint listedOldReading]⟩

/-- C1 (code bug): the List pipeline appends `limit` BEFORE `sort`,
not after as the spec states.  Consequence at a concrete input: with two
readings inside the 24-hour window, at times 10000 and 20000, and
`limit=1`, the gateway returns the OLDER reading (time 10000) and drops
the most recent one — the claim says the readings returned are the most
recent ones up to `limit`. -/
theorem claim1_limit_applied_before_sort :
    buildListQuery "" 1 =
      [.range 86400, .filterMeasurement "sensor_readings", .pivot,
       .limit 1, .sort true] ∧
    (90000 : Int) - 86400 ≤ listedOldReading.timestamp ∧
    listedOldReading.timestamp < 90000 ∧
    (90000 : Int) - 86400 ≤ listedNewReading.timestamp ∧
    listedNewReading.timestamp < 90000 ∧
    listedOldReading.timestamp < listedNewReading.timestamp ∧
    getSensorData "1" ""
        (fun q => .ok (runQuery 90000
          [buildPoint listedOldReading, buildPoint listedNewReading] q)
          false) =
      .success 200 "Data retrieved successfully"
        (.readings [listedOldReading]) ∧
    [listedOldReading] ≠ [listedNewReading] :=
  ⟨rfl, by decide, by decide, by decide, by decide, by decide, rfl,
   by decide⟩

/-- `fillDefaults` only touches id and timestamp: the four measurements
and the location are unchanged. -/
theorem fillDefaults_preserves_fields (now : GoTime) (d : SensorData) :
    (fillDefaults now d).temperature = d.temperature ∧
    (fillDefaults now d).humidity = d.humidity ∧
    (fillDefaults now d).pressure = d.pressure ∧
    (fillDefaults now d).altitude = d.altitude ∧
    (fillDefaults now d).location = d.location := by
  simp only [fillDefaults]
  split <;> split <;> simp

/-- Running the GetByID query for `s.id` over a store holding exactly
the point Create builds for `s` yields one pivoted record carrying all
four written field values, provided the point's timestamp lies in the
30-day window. -/
theorem runQuery_single_point (nowQ : GoTime) (s : SensorData)
    (h1 : nowQ - 2592000 ≤ s.timestamp) (h2 : s.timestamp < nowQ) :
    runQuery nowQ [buildPoint s] (buildGetByIDQuery s.id) =
      [{ time := s.timestamp, measurement := "sensor_readings",
         sensor_id := s.id, location := s.location,
         temperature := some s.temperature, humidity := some s.humidity,
         pressure := some s.pressure, altitude := some s.altitude }] := by
  have h1' : nowQ ≤ s.timestamp + 2592000 := sub_le_iff_le_add.mp h1
  simp [runQuery, buildGetByIDQuery, evalStage, Point.toRawRows, buildPoint,
    pivotRows, dedupKeys, dedupKeysAux, lookupField, RawRow.pivotKey,
    List.insertionSort, List.orderedInsert, List.lookup, h1', h2]

/-- C3: writing a reading via Create (into an otherwise empty store, so
the written point is the most recent one for its tag) and then fetching
by the stored reading's id returns a 200 response whose temperature,
humidity, pressure and altitude equal the values that were written,
provided the stored timestamp lies inside GetByID's 30-day window at
query time. -/
theorem claim3_create_then_get_round_trip (nowW nowQ : GoTime)
    (d : SensorData)
    (h1 : nowQ - 2592000 ≤ (fillDefaults nowW d).timestamp)
    (h2 : (fillDefaults nowW d).timestamp < nowQ) :
    getSensorDataByID (fillDefaults nowW d).id
        (fun q => .ok (runQuery nowQ
          (createSensorData nowW (.ok d) true).2 q) false) =
      .success 200 "Data retrieved successfully"
        (.reading
          { id := (fillDefaults nowW d).id
            timestamp := (fillDefaults nowW d).timestamp
            temperature := d.temperature
            humidity := d.humidity
            pressure := d.pressure
            altitude := d.altitude
            location := d.location }) := by
  obtain ⟨ht, hh, hp, ha, hl⟩ := fillDefaults_preserves_fields nowW d
  have hw : (createSensorData nowW (.ok d) true).2 =
      [buildPoint (fillDefaults nowW d)] := rfl
  have hq := runQuery_single_point nowQ (fillDefaults nowW d) h1 h2
  simp only [getSensorDataByID, hw, hq, recordToSensorData, Option.getD]
  rw [ht, hh, hp, ha, hl]

/-- Witness for C3: the sample reading written at time 777 and fetched
at time 90001 comes back with its written field values. -/
theorem claim3_create_then_get_round_trip_witness :
    ((90001 : GoTime) - 2592000 ≤ (fillDefaults 777 sampleReading).timestamp ∧
     (fillDefaults 777 sampleReading).timestamp < 90001) ∧
    getSensorDataByID (fillDefaults 777 sampleReading).id
        (fun q => .ok (runQuery 90001
          (createSensorData 777 (.ok sampleReading) true).2 q) false) =
      .success 200 "Data retrieved successfully"
        (.reading
          { id := (fillDefaults 777 sampleReading).id
            timestamp := (fillDefaults 777 sampleReading).timestamp
            temperature := sampleReading.temperature
            humidity := sampleReading.humidity
            pressure := sampleReading.pressure
            altitude := sampleReading.altitude
            location := sampleReading.location }) :=
  ⟨⟨by decide, by decide⟩,
   claim3_create_then_get_round_trip 777 90001 sampleReading
     (by decide) (by decide)⟩
